import Mathlib

/-!
Shallow embedding of src/email-to-notion-v2.py.

The source is a single Python file.  Pure functions of the source are
translated to Lean functions; the SQLite dedup ledger, the in-memory task
store of the remote workspace, and the last-run file are modelled as an
explicit state record threaded through the operations; every fallible
Python operation is modelled with Except.  Timestamps that only flow
through the code as opaque text are modelled as String; timestamps used
in arithmetic (the run clock) are modelled as Nat minutes.
-/

/-- Exceptions of the Python runtime that the source can raise, named after
the concrete Python exception classes that arise at each site. -/
inductive PyErr where
  | valueError
  | attributeError
  | nameError
  | typeError
  | integrityError
  | imapError
  | notionError
  | unicodeDecodeError
deriving DecidableEq

/-- Row of the processed_emails table created in init_database (lines
116-123): message_id TEXT PRIMARY KEY, subject TEXT, processed_date
TIMESTAMP, status TEXT. -/
structure PRow where
  message_id : String
  subject : String
  processed_date : String
  status : String
deriving DecidableEq

/-- Page created in the remote workspace by create_notion_page (lines
208-239): title, body content, multi-select types, constant status New,
optional due date. -/
structure NotionPage where
  title : String
  content : String
  types : List String
  status : String
  due : Option String
deriving DecidableEq

/-- Durable state of the processor: the dedup ledger (SQLite table), the
set of pages created remotely, and the contents of data/last_run.txt
(none when the file does not exist). -/
structure ProcState where
  ledger : List PRow
  tasks : List NotionPage
  lastRunFile : Option Nat
deriving DecidableEq

/-- Ignore rules document (lines 43-47): field order follows the source
dict: emails, subjects, domains. -/
structure IgnoreList where
  emails : List String
  subjects : List String
  domains : List String
deriving DecidableEq

/-- Python substring test (the in operator on str): needle occurs
contiguously in hay.  Position-indexed search over the character list;
the empty needle occurs in every string, as in Python. -/
def strContains (hay needle : String) : Bool :=
  (List.range (hay.toList.length + 1)).any fun i =>
    ((hay.toList.drop i).take needle.toList.length) == needle.toList

/-- Python str.split on a single character: splitOnChar c l cuts l at
every occurrence of c; the result is never empty, and an input without c
yields the singleton of the input, exactly like the Python split. -/
def splitOnChar (c : Char) : List Char → List (List Char)
  | [] => [[]]
  | x :: xs =>
    let r := splitOnChar c xs
    if x == c then [] :: r
    else match r with
      | [] => [[x]]
      | h :: t => (x :: h) :: t

/-- Embedding of from_addr.split(at-sign)[-1] in should_ignore line 164:
the substring after the last at-sign, or the whole address when it has
none. -/
def senderDomain (addr : String) : String :=
  String.mk ((splitOnChar '@' addr.toList).getLastD addr.toList)

/-- Python str.lower, modelled character-wise over the character list
(structurally, so that it evaluates): each character is lowered with
Char.toLower, which agrees with the Python lowering on the ASCII texts
of this code. -/
def toLowerStr (s : String) : String :=
  String.mk (s.toList.map Char.toLower)

/-- Embedding of EmailProcessor.should_ignore (source lines 157-173):
address membership first, then domain of the sender, then the
case-insensitive subject-phrase scan.  The early returns of the source
are short-circuit disjunction, in the order of the source. -/
def should_ignore (cfg : IgnoreList) (from_addr subject : String) : Bool :=
  cfg.emails.contains from_addr ||
    (cfg.domains.contains (senderDomain from_addr) ||
      cfg.subjects.any fun p => strContains (toLowerStr subject) (toLowerStr p))

/-- Default keyword taxonomy written by ConfigManager.load_configs
(source lines 29-34), in source order. -/
def defaultKeywords : List (String × List String) :=
  [("assignment", ["assignment", "homework", "hw", "project", "submit", "submission"]),
   ("exam", ["exam", "test", "quiz", "midterm", "final", "assessment"]),
   ("deadline", ["deadline", "due", "due date", "by", "until"]),
   ("meeting", ["meeting", "class", "lecture", "seminar", "workshop"])]

/-- Embedding of EmailProcessor.detect_task_type (source lines 175-184):
the text is the lower-cased subject, a space, and the lower-cased body;
a label is collected when any of its keywords is a substring of that
text; the fallback is the singleton other. -/
def detect_task_type (keywords : List (String × List String)) (subject body : String) : List String :=
  let text := toLowerStr subject ++ " " ++ toLowerStr body
  let detected := (keywords.filter fun p => p.2.any fun kw => strContains text kw).map Prod.fst
  if detected.isEmpty then ["other"] else detected

/-- Occurrence of a keyword in the combined text of an email, as the spec
words it: the keyword occurs in the lower-cased text assembled from
subject and body (the source joins them with a single space). -/
def occursInCombined (kw subject body : String) : Bool :=
  strContains (toLowerStr subject ++ " " ++ toLowerStr body) kw

/-- Embedding of EmailProcessor.is_email_processed (source lines
142-146): a SELECT by primary key on the ledger. -/
def is_email_processed (ledger : List PRow) (message_id : String) : Bool :=
  ledger.any fun r => r.message_id == message_id

/-- Embedding of EmailProcessor.mark_email_processed (source lines
148-155).  The INSERT hits the PRIMARY KEY constraint of the table
created at lines 116-123: with the message_id already present, SQLite
raises IntegrityError and writes nothing; otherwise the row is appended.
The now argument models datetime.now() of line 153; status is explicit
here, the Python default is modelled by markEmailProcessedDefault. -/
def mark_email_processed (ledger : List PRow) (message_id subject now status : String) :
    Except PyErr Unit × List PRow :=
  if is_email_processed ledger message_id then (.error .integrityError, ledger)
  else (.ok (), ledger ++ [⟨message_id, subject, now, status⟩])

/-- Call shape of line 302: mark_email_processed with no status argument,
so the Python default value success applies. -/
def markEmailProcessedDefault (ledger : List PRow) (message_id subject now : String) :
    Except PyErr Unit × List PRow :=
  mark_email_processed ledger message_id subject now "success"

/-- Raw message as the pass sees it after the IMAP search (source lines
261-282).  fetchResult is the outcome of mail.fetch plus
email.message_from_bytes; messageIdHeader is the Message-ID header (none
when absent); genStamp models the datetime.now().timestamp() text used
for a generated identifier; subjectField is the subject header: none
when the header is missing (decode_header(None) raises TypeError), error
when the bytes value fails to decode, ok when decoding succeeds;
fromField is the From header. -/
structure RawMsg where
  fetchResult : Except PyErr Unit
  messageIdHeader : Option String
  genStamp : String
  subjectField : Option (Except PyErr String)
  fromField : Option String

/-- Identifier resolution of source lines 268-272: the Message-ID header
when present and non-empty (the Python test is if not message_id, which
also catches the empty string), else a generated identifier. -/
def resolveId (m : RawMsg) : String :=
  match m.messageIdHeader with
  | none => "generated-" ++ m.genStamp
  | some id => if id == "" then "generated-" ++ m.genStamp else id

/-- Outcome of the body of the per-message try block (source lines
262-303) for one message.  skippedDuplicate is the continue of line 276,
skippedIgnored the continue of line 289, faulted an exception raised
inside the try block and caught by the handler at lines 305-307.

A completed outcome does not occur in this draft: process_emails at line
241 is a module-level function (it starts at column zero, so the class
body ends at line 239), hence extract_email_content at line 316 is a
local of process_emails defined after the try statement and never an
attribute of self, and line 292 self.extract_email_content raises
AttributeError; even reading both functions as methods, line 295 invokes
parse_due_date by its bare name, which is bound neither at module scope
nor by any import, raising NameError.  Under every reading an exception
is raised between lines 292 and 295, before create_notion_page, so the
create and mark tail at lines 297-303 is unreachable.  We embed the
fault of line 292. -/
inductive MsgOutcome where
  | skippedDuplicate
  | skippedIgnored
  | faulted (e : PyErr)
deriving DecidableEq

/-- Embedding of the per-message try block of process_emails (source
lines 262-303), in source order: fetch, identifier resolution, the dedup
check of line 275, subject decoding (lines 279-281), the From header,
the ignore check of line 287, then the content step of line 292, which
raises AttributeError as explained at MsgOutcome.  A missing From header
also faults: should_ignore would call None.split at line 164.  No
reachable branch writes to the state, which is returned alongside the
outcome. -/
def handleMessage (cfg : IgnoreList) (st : ProcState) (m : RawMsg) : MsgOutcome × ProcState :=
  match m.fetchResult with
  | .error e => (.faulted e, st)
  | .ok _ =>
    if is_email_processed st.ledger (resolveId m) then (.skippedDuplicate, st)
    else
      match m.subjectField with
      | none => (.faulted .typeError, st)
      | some (.error e) => (.faulted e, st)
      | some (.ok subject) =>
        match m.fromField with
        | none => (.faulted .attributeError, st)
        | some from_addr =>
          if should_ignore cfg from_addr subject then (.skippedIgnored, st)
          else (.faulted .attributeError, st)

/-- The per-message exception handler of source lines 305-307: a faulted
outcome is logged and the loop continues with the state as the message
left it. -/
def processOneMessage (cfg : IgnoreList) (st : ProcState) (m : RawMsg) : ProcState :=
  (handleMessage cfg st m).2

/-- The message loop of source line 261: the batch is processed
sequentially, threading the state. -/
def processBatch (cfg : IgnoreList) (st : ProcState) (msgs : List RawMsg) : ProcState :=
  msgs.foldl (processOneMessage cfg) st

/-- Pass-level collaborator outcomes: connectResult models lines 246-259
(IMAP4_SSL constructor, login, select, search), yielding the batch on
success; logoutResult models mail.logout at line 309. -/
structure PassInput where
  connectResult : Except PyErr (List RawMsg)
  logoutResult : Except PyErr Unit

/-- Embedding of process_emails (source lines 241-314).  A connect or
search failure is caught by the handler at lines 312-314, logged, and
re-raised, before any message is handled; otherwise the batch loop runs
to completion, then logout, whose failure is likewise logged and
re-raised; state changes made by the loop persist (the database commits
inside the loop).  The since_time parameter only shapes the search
criteria string and is subsumed by connectResult. -/
def process_emails (cfg : IgnoreList) (inp : PassInput) (st : ProcState) :
    Except PyErr Unit × ProcState :=
  match inp.connectResult with
  | .error e => (.error e, st)
  | .ok msgs =>
    let st1 := processBatch cfg st msgs
    match inp.logoutResult with
    | .error e => (.error e, st1)
    | .ok _ => (.ok (), st1)

/-- Embedding of EmailProcessor.save_last_run_time (source lines
136-139): writes datetime.now() to data/last_run.txt.  In the whole
source this function is invoked exactly once, from load_last_run_time at
line 134, when the file does not exist at startup; no call follows a
processing pass. -/
def save_last_run_time (now : Nat) (st : ProcState) : ProcState :=
  { st with lastRunFile := some now }

/-- Embedding of EmailProcessor.load_last_run_time (source lines
126-134), run during construction: with the file present its value
becomes last_run_time; with the file absent last_run_time is set to now
minus 24 hours (1440 minutes) while save_last_run_time writes now itself
to the file.  Returns the in-memory last_run_time and the new state. -/
def load_last_run_time (now : Nat) (st : ProcState) : Nat × ProcState :=
  match st.lastRunFile with
  | some t => (t, st)
  | none => (now - 1440, save_last_run_time now st)

/-- Embedding of EmailProcessor.create_notion_page (source lines
208-239): on API success a page with constant status New is appended; an
API failure is logged and re-raised (line 239).  In this draft the only
call site, line 299, is unreachable (see MsgOutcome), so no reachable
path of the pass invokes this function. -/
def create_notion_page (api : Except PyErr Unit) (title content : String)
    (types : List String) (due : Option String) (st : ProcState) : Except PyErr ProcState :=
  match api with
  | .error e => .error e
  | .ok _ => .ok { st with tasks := st.tasks ++ [⟨title, content, types, "New", due⟩] }

/-- Environment variables read by run_processor (source lines 337-340). -/
structure Env where
  email_address : Option String
  email_password : Option String
  notion_token : Option String
  database_id : Option String

/-- Python truthiness of one environment value under the all() test of
line 342: present and non-empty. -/
def truthy (o : Option String) : Bool :=
  match o with
  | none => false
  | some s => !(s == "")

/-- The all() test of source line 342 over the four required values. -/
def envComplete (env : Env) : Bool :=
  truthy env.email_address && truthy env.email_password &&
    truthy env.notion_token && truthy env.database_id

/-- Terminal outcome of run_processor.  running would mean the scheduling
loop of lines 358-360 is alive; fatal carries the exception logged and
re-raised by the handler at lines 362-364. -/
inductive RunOutcome where
  | running
  | fatal (e : PyErr)
deriving DecidableEq

/-- Embedding of run_processor (source lines 333-364).  With any of the
four environment values missing or empty, line 343 raises ValueError,
which the handler at lines 362-364 logs and re-raises.  Otherwise the
EmailProcessor is constructed and line 348 evaluates
processor.process_emails: process_emails (line 241) is a module-level
function, not an attribute of the EmailProcessor class (the class body
ends at line 239), so the attribute lookup raises AttributeError, which
the same handler logs and re-raises.  The scheduling statements at lines
351-356 and the loop at lines 358-360 are therefore never reached, and
no invocation of run_processor leaves the loop running; had a pass been
reached and failed, process_emails re-raises pass-level errors (line
314) and neither the loop body nor the schedule library catches job
exceptions, so the error would propagate out of the loop to the same
terminal handler.  Construction of the EmailProcessor itself is modelled
as succeeding; its failures are environmental. -/
def run_processor (env : Env) : RunOutcome :=
  if envComplete env then .fatal .attributeError else .fatal .valueError

/-- Word character of the regex metaclass used for word boundaries, for
the ASCII texts of this development: letter, digit, or underscore. -/
def isWordChar (c : Char) : Bool :=
  c.isAlpha || c.isDigit || c == '_'

/-- Whitespace of the regex metaclass: space, tab, newline, carriage
return, vertical tab, form feed. -/
def isSpaceChar (c : Char) : Bool :=
  c == ' ' || c == '\t' || c == '\n' || c == '\r' || c == '\x0b' || c == '\x0c'

/-- Word boundary holds before position i of cs when a word character at
i is preceded by the start of the text or a non-word character.  The
callers only test it at positions whose next character is a word
character (digit or letter). -/
def boundaryBefore (cs : List Char) (i : Nat) : Bool :=
  i == 0 || !(isWordChar (cs.getD (i - 1) ' '))

/-- Word boundary after a word character: end of text or a non-word
character next. -/
def boundaryAfter (l : List Char) : Bool :=
  match l with
  | [] => true
  | c :: _ => !(isWordChar c)

/-- Bounded repetition of digits followed by a continuation: some count n
with lo ≤ n ≤ hi such that the next n characters are digits and the
continuation accepts the rest.  Ranging over every admissible n gives
exactly the match-existence semantics of a backtracking regex engine for
a digit repetition. -/
def digitsChoice (lo hi : Nat) (cs : List Char) (k : List Char → Bool) : Bool :=
  (List.range (hi + 1)).any fun n =>
    decide (lo ≤ n) && ((cs.take n).length == n) &&
      (cs.take n).all (fun c => c.isDigit) && k (cs.drop n)

/-- One date separator, slash or hyphen, then the continuation. -/
def sepChoice (cs : List Char) (k : List Char → Bool) : Bool :=
  match cs with
  | [] => false
  | c :: rest => (c == '/' || c == '-') && k rest

/-- Core of the first date pattern of parse_due_date (source line 191):
one or two digits, separator, one or two digits, separator, two to four
digits, then a word boundary. -/
def numericDateAt (cs : List Char) : Bool :=
  digitsChoice 1 2 cs fun r1 =>
    sepChoice r1 fun r2 =>
      digitsChoice 1 2 r2 fun r3 =>
        sepChoice r3 fun r4 =>
          digitsChoice 2 4 r4 boundaryAfter

/-- Existence of a match of the first pattern of source line 191 anywhere
in the text, as re.search decides it.  The leading optional non-capturing
prefix (due, optionally on or by, then whitespace) does not affect match
existence: when a match with the prefix exists, the date core is preceded
by whitespace, so the prefix-less alternative of the same pattern also
matches at the date core, whose leading digit then has a word boundary;
conversely any match of the core with boundaries is a match of the whole
pattern with the prefix absent.  The embedding therefore scans every
position for the date core with a word boundary on each side. -/
def pattern1Matches (s : String) : Bool :=
  let cs := s.toList
  (List.range (cs.length + 1)).any fun i => boundaryBefore cs i && numericDateAt (cs.drop i)

/-- Month-name alternation of the second pattern of source line 192,
case-insensitively: the next three characters, lower-cased, form a month
abbreviation. -/
def month3 (cs : List Char) : Bool :=
  match cs with
  | a :: b :: c :: _ =>
    ["jan", "feb", "mar", "apr", "may", "jun",
     "jul", "aug", "sep", "oct", "nov", "dec"].contains (String.mk [a.toLower, b.toLower, c.toLower])
  | _ => false

/-- Core of the second date pattern at a position: month abbreviation,
then any further letters (the case-insensitive letter star of the
pattern; since the next required token is whitespace, disjoint from
letters, a backtracking engine succeeds exactly when the maximal letter
run is consumed), then one whitespace character, then two to four digits
and a word boundary. -/
def pattern2CoreAt (cs : List Char) : Bool :=
  month3 cs &&
    (match (cs.drop 3).dropWhile (fun c => c.isAlpha) with
     | [] => false
     | w :: rest => isSpaceChar w && digitsChoice 2 4 rest boundaryAfter)

/-- Existence of a match of the second pattern of source line 192
anywhere in the text.  As for the first pattern, the optional due prefix
and the optional leading day digits do not affect match existence (each
optional part, when present, ends in whitespace or is followed by the
month letters, so the alternative without it matches at the month
position, where the boundary holds); the embedding scans every position
for the month core with a word boundary before it. -/
def pattern2Matches (s : String) : Bool :=
  let cs := s.toList
  (List.range (cs.length + 1)).any fun i => boundaryBefore cs i && pattern2CoreAt (cs.drop i)

/-- Embedding of EmailProcessor.parse_due_date (source lines 186-206).
The loop of lines 196-202 searches the two patterns in order.  When
neither pattern matches anywhere, the loop falls through and line 206
returns None.  When a pattern matches, line 200 evaluates date_parse,
a name bound neither by any import of the file nor at module scope, so
NameError is raised inside the try block; the handler at lines 204-205
then evaluates self.logger, and self is not a parameter of this function
(its only parameter is content), so the handler itself raises NameError,
which propagates out of the function.  Hence: a match of either pattern
yields an escaping NameError; no match yields None. -/
def parse_due_date (content : String) : Except PyErr (Option String) :=
  if pattern1Matches content || pattern2Matches content then .error .nameError
  else .ok none

/-- Schedule configuration document (source lines 36-41): fixed daily
times (modelled as minutes of the day), the interval in minutes, the
catch-up flag, and the maximum catch-up lookback in hours. -/
structure ScheduleConfig where
  fixed_times : List Nat
  interval_minutes : Nat
  catch_up_missed : Bool
  max_catch_up_hours : Nat
deriving DecidableEq

/-- Insertion of a value into an ascending list, keeping it ascending. -/
def insertAsc (x : Nat) : List Nat → List Nat
  | [] => [x]
  | y :: ys => if x ≤ y then x :: y :: ys else y :: insertAsc x ys

/-- Ascending insertion sort. -/
def sortAsc (l : List Nat) : List Nat :=
  l.foldr insertAsc []

/-- Modelled from the spec: compute_missed_runs is the catch-up algorithm
of the specification (section 4.2, steps 1 to 4); no function of the
source file implements it (run_processor at lines 333-364 schedules
plain passes and the only related artifact in the source is the
catch_up_missed flag of the default schedule document, lines 36-41).
Times are Nat minutes since an epoch, days are 1440 minutes.  Step 1:
with catch-up disabled the result is empty.  Step 2: each fixed
time-of-day T gives todays occurrence, kept when strictly between
last_run and now.  Step 3: from the maximum of last_run and now minus
the lookback, step by the interval, collecting each stepped timestamp
strictly below now.  Step 4: merge and sort ascending. -/
def compute_missed_runs (cfg : ScheduleConfig) (last_run now : Nat) : List Nat :=
  if cfg.catch_up_missed then
    let todayStart := now - now % 1440
    let fixedMissed := (cfg.fixed_times.map fun t => todayStart + t).filter
      fun s => decide (last_run < s) && decide (s < now)
    let start := max last_run (now - cfg.max_catch_up_hours * 60)
    let intervalMissed := ((List.range ((now - start) / cfg.interval_minutes + 1)).map
      fun k => start + (k + 1) * cfg.interval_minutes).filter fun s => decide (s < now)
    sortAsc (fixedMissed ++ intervalMissed)
  else []

/-- Empty ignore rules, the default document of source lines 43-47. -/
def cfgEmpty : IgnoreList := ⟨[], [], []⟩

/-- Processor state with empty ledger, no tasks, and no last-run file. -/
def stEmpty : ProcState := ⟨[], [], none⟩

/-- Fixture: a well-formed fresh message. -/
def msgFresh : RawMsg := ⟨.ok (), some "newid", "g1", some (.ok "Hello"), some "bob@x.org"⟩

/-- Fixture: a second well-formed fresh message. -/
def msgSecond : RawMsg := ⟨.ok (), some "id2", "g2", some (.ok "Yo"), some "c@d.e"⟩

/-- Helper: no reachable branch of the per-message body mutates the
state. -/
theorem handleMessage_state_eq (cfg : IgnoreList) (st : ProcState) (m : RawMsg) :
    (handleMessage cfg st m).2 = st := by
  unfold handleMessage
  rcases m with ⟨fr, mi, gs, sf, ff⟩
  cases fr with
  | error e => rfl
  | ok u =>
    dsimp only
    split
    · rfl
    · match sf with
      | none => rfl
      | some (.error e) => rfl
      | some (.ok subj) =>
        match ff with
        | none => rfl
        | some fa =>
          dsimp only
          split <;> rfl

/-- Helper: the message loop leaves the state unchanged, by induction on
the batch. -/
theorem processBatch_state_eq (cfg : IgnoreList) (st : ProcState) (msgs : List RawMsg) :
    processBatch cfg st msgs = st := by
  induction msgs generalizing st with
  | nil => rfl
  | cons m ms ih =>
    have h1 : processOneMessage cfg st m = st := by
      unfold processOneMessage
      exact handleMessage_state_eq cfg st m
    calc processBatch cfg st (m :: ms)
        = processBatch cfg (processOneMessage cfg st m) ms := rfl
      _ = processBatch cfg st ms := by rw [h1]
      _ = st := ih st

/-- C1: for every message whose resolved identifier is already recorded
in the dedup ledger, the pass skips it entirely at the dedup check of
source lines 274-276: the per-message body takes the skippedDuplicate
branch, returning the state untouched, so no remote task is created for
it and the ledger row for that identifier is left unchanged, and the
handler that continues the loop keeps the state as it was. -/
theorem c1_processed_message_skipped (cfg : IgnoreList) (st : ProcState) (m : RawMsg)
    (hf : m.fetchResult = .ok ())
    (hp : is_email_processed st.ledger (resolveId m) = true) :
    handleMessage cfg st m = (.skippedDuplicate, st) ∧ processOneMessage cfg st m = st := by
  have h1 : handleMessage cfg st m = (.skippedDuplicate, st) := by
    simp [handleMessage, hf, hp]
  refine ⟨h1, ?_⟩
  unfold processOneMessage
  rw [h1]

/-- Witness for C1 at a concrete ledger and message. -/
theorem c1_processed_message_skipped_witness :
    (RawMsg.fetchResult ⟨.ok (), some "idA", "g", some (.ok "Hi"), some "a@b.c"⟩ = .ok ()) ∧
      is_email_processed [⟨"idA", "s", "t", "success"⟩]
        (resolveId ⟨.ok (), some "idA", "g", some (.ok "Hi"), some "a@b.c"⟩) = true ∧
      handleMessage cfgEmpty ⟨[⟨"idA", "s", "t", "success"⟩], [], none⟩
          ⟨.ok (), some "idA", "g", some (.ok "Hi"), some "a@b.c"⟩ =
        (.skippedDuplicate, ⟨[⟨"idA", "s", "t", "success"⟩], [], none⟩) :=
  ⟨rfl, rfl,
    (c1_processed_message_skipped cfgEmpty ⟨[⟨"idA", "s", "t", "success"⟩], [], none⟩
      ⟨.ok (), some "idA", "g", some (.ok "Hi"), some "a@b.c"⟩ rfl rfl).1⟩

/-- C2: compute_missed_runs invoked with the catch-up flag false returns
the empty list of missed runs, for every last_run_time and now. -/
theorem c2_catchup_disabled_empty (cfg : ScheduleConfig) (last_run now : Nat)
    (h : cfg.catch_up_missed = false) :
    compute_missed_runs cfg last_run now = [] := by
  simp [compute_missed_runs, h]

/-- Witness for C2 at the default schedule document with the flag off. -/
theorem c2_catchup_disabled_empty_witness :
    (ScheduleConfig.catch_up_missed ⟨[540, 720, 900, 1080, 1260], 30, false, 24⟩ = false) ∧
      compute_missed_runs ⟨[540, 720, 900, 1080, 1260], 30, false, 24⟩ 0 987654 = [] :=
  ⟨rfl, c2_catchup_disabled_empty ⟨[540, 720, 900, 1080, 1260], 30, false, 24⟩ 0 987654 rfl⟩

/-- C3: the claim that now is persisted as last_run_time exactly once
after a successfully completing pass, and only then, fails on the code:
a pass leaves the last-run file unchanged for every input (first
conjunct), the only write of the file happens at startup inside
load_last_run_time when the file is absent, before any pass (second
conjunct), and the evaluation at the failing input, a pass that
completes without fatal error over an empty batch with the file holding
500, returns success with the file still holding 500 (third
conjunct). -/
theorem c3_last_run_not_persisted :
    (∀ (cfg : IgnoreList) (inp : PassInput) (st : ProcState),
        ((process_emails cfg inp st).2).lastRunFile = st.lastRunFile) ∧
      (load_last_run_time 2000 stEmpty).2.lastRunFile = some 2000 ∧
      process_emails cfgEmpty ⟨.ok [], .ok ()⟩ ⟨[], [], some 500⟩ =
        (.ok (), ⟨[], [], some 500⟩) := by
  refine ⟨?_, rfl, rfl⟩
  intro cfg inp st
  rcases inp with ⟨cr, lr⟩
  cases cr with
  | error e => rfl
  | ok msgs =>
    cases lr with
    | error e =>
      show (processBatch cfg st msgs).lastRunFile = st.lastRunFile
      rw [processBatch_state_eq]
    | ok u =>
      show (processBatch cfg st msgs).lastRunFile = st.lastRunFile
      rw [processBatch_state_eq]

/-- C4: a second mark_email_processed call for an identifier already in
the ledger fails with the duplicate-key IntegrityError of the PRIMARY
KEY constraint and returns the ledger exactly as it was: the stored
subject, timestamp and status of the existing row are not overwritten. -/
theorem c4_duplicate_mark_integrity_error (ledger : List PRow) (id subj now status : String)
    (h : is_email_processed ledger id = true) :
    mark_email_processed ledger id subj now status = (.error .integrityError, ledger) := by
  simp [mark_email_processed, h]

/-- Witness for C4 at a concrete one-row ledger. -/
theorem c4_duplicate_mark_integrity_error_witness :
    is_email_processed [⟨"m1", "s0", "t0", "success"⟩] "m1" = true ∧
      mark_email_processed [⟨"m1", "s0", "t0", "success"⟩] "m1" "s1" "t1" "success" =
        (.error .integrityError, [⟨"m1", "s0", "t0", "success"⟩]) :=
  ⟨rfl, c4_duplicate_mark_integrity_error [⟨"m1", "s0", "t0", "success"⟩] "m1" "s1" "t1" "success" rfl⟩

/-- C5: a fault while handling one message of the batch is caught by the
per-message handler of source lines 305-307 and the pass continues with
the next message: the batch around the faulting message is still folded
through to the end from the state the fault left, and the pass as a
whole still completes without error. -/
theorem c5_message_fault_continues (cfg : IgnoreList) (st : ProcState)
    (pre post : List RawMsg) (m : RawMsg) (e : PyErr)
    (hf : (handleMessage cfg (processBatch cfg st pre) m).1 = .faulted e) :
    processBatch cfg st (pre ++ m :: post) =
        processBatch cfg ((handleMessage cfg (processBatch cfg st pre) m).2) post ∧
      (process_emails cfg ⟨.ok (pre ++ m :: post), .ok ()⟩ st).1 = .ok () := by
  constructor
  · unfold processBatch
    rw [List.foldl_append]
    simp only [List.foldl_cons]
    rfl
  · rfl

/-- Witness for C5: the first message of a two-message batch faults (in
this draft every fresh unignored message faults at the content step) and
the batch continues into the second message while the pass completes. -/
theorem c5_message_fault_continues_witness :
    ((handleMessage cfgEmpty (processBatch cfgEmpty stEmpty []) msgFresh).1 =
        MsgOutcome.faulted .attributeError) ∧
      (processBatch cfgEmpty stEmpty ([] ++ msgFresh :: [msgSecond]) =
          processBatch cfgEmpty
            ((handleMessage cfgEmpty (processBatch cfgEmpty stEmpty []) msgFresh).2) [msgSecond] ∧
        (process_emails cfgEmpty ⟨.ok ([] ++ msgFresh :: [msgSecond]), .ok ()⟩ stEmpty).1 = .ok ()) :=
  ⟨rfl, c5_message_fault_continues cfgEmpty stEmpty [] [msgSecond] msgFresh .attributeError rfl⟩

/-- Counterexample for C6: with a complete environment, run_processor
terminates fatally instead of keeping the scheduling loop running, so
the loop does not survive indefinitely and a failed pass is never
retried at a next trigger. -/
theorem c6_loop_terminates_cex :
    envComplete ⟨some "a@b.c", some "pw", some "tok", some "db"⟩ = true ∧
      run_processor ⟨some "a@b.c", some "pw", some "tok", some "db"⟩ = .fatal .attributeError ∧
      run_processor ⟨some "a@b.c", some "pw", some "tok", some "db"⟩ ≠ .running := by
  refine ⟨rfl, rfl, ?_⟩
  decide

/-- C6 amended: pass-level failures do escalate.  Every invocation of
run_processor ends fatally (missing environment gives ValueError, a
complete one reaches the AttributeError of line 348 before the loop),
and process_emails re-raises a pass-level connect or search failure to
its caller instead of containing it, so nothing in the scheduling loop
would absorb a failed pass. -/
theorem c6_pass_error_escalates :
    (∀ env : Env,
        run_processor env = .fatal .valueError ∨ run_processor env = .fatal .attributeError) ∧
      (∀ (cfg : IgnoreList) (lr : Except PyErr Unit) (st : ProcState) (e : PyErr),
        (process_emails cfg ⟨.error e, lr⟩ st).1 = .error e) := by
  constructor
  · intro env
    unfold run_processor
    split
    · exact Or.inr rfl
    · exact Or.inl rfl
  · intro cfg lr st e
    rfl

/-- C7: evaluation of parse_due_date at the failing input of the claim.
On the input that the claim says yields 2024-12-31, the first pattern
matches and the function raises NameError (date_parse is unbound, and
the handler dereferences the unbound self), so no date is returned; on
the no-match input the function does return the None the claim
expects. -/
theorem c7_parse_due_date_eval :
    parse_due_date "Please submit by 12/31/2024" = .error .nameError ∧
      parse_due_date "no date here" = .ok none :=
  ⟨rfl, rfl⟩

/-- Counterexample for C8: with an ignored-subject phrase configured, a
sender whose address is in no ignored set and whose domain matches no
ignored domain is still ignored because of the subject, so the returned
value does depend on the subject content. -/
theorem c8_subject_overrides_domain_cex :
    should_ignore ⟨[], ["urgent"], ["spam.com"]⟩ "alice@unrelated.com" "URGENT: meeting" = true ∧
      senderDomain "alice@unrelated.com" = "unrelated.com" ∧
      (IgnoreList.domains ⟨[], ["urgent"], ["spam.com"]⟩).contains "unrelated.com" = false ∧
      (IgnoreList.emails ⟨[], ["urgent"], ["spam.com"]⟩).contains "alice@unrelated.com" = false :=
  ⟨by decide, by decide, by decide, by decide⟩

/-- C8 amended: should_ignore returns true for every sender whose domain
(the substring after the last at-sign) matches an ignored domain, and
returns false for every sender whose address and domain are unrelated
provided no ignored-subject phrase occurs case-insensitively in the
subject. -/
theorem c8_domain_ignore (cfg : IgnoreList) (from_addr subject : String) :
    (cfg.domains.contains (senderDomain from_addr) = true →
        should_ignore cfg from_addr subject = true) ∧
      (cfg.emails.contains from_addr = false →
        cfg.domains.contains (senderDomain from_addr) = false →
        (cfg.subjects.any fun p => strContains (toLowerStr subject) (toLowerStr p)) = false →
        should_ignore cfg from_addr subject = false) := by
  constructor
  · intro h
    unfold should_ignore
    rw [h]
    simp
  · intro h1 h2 h3
    unfold should_ignore
    rw [h1, h2, h3]
    rfl

/-- Witness for C8 amended, both directions at concrete inputs. -/
theorem c8_domain_ignore_witness :
    should_ignore ⟨["x@y.z"], ["spam"], ["bad.com"]⟩ "bob@bad.com" "whatever" = true ∧
      should_ignore ⟨["x@y.z"], ["spam"], ["bad.com"]⟩ "alice@good.com" "hello there" = false :=
  ⟨(c8_domain_ignore ⟨["x@y.z"], ["spam"], ["bad.com"]⟩ "bob@bad.com" "whatever").1 (by decide),
    (c8_domain_ignore ⟨["x@y.z"], ["spam"], ["bad.com"]⟩ "alice@good.com" "hello there").2
      (by decide) (by decide) (by decide)⟩

/-- Helper for C9: membership in the detect_task_type result, for an
arbitrary taxonomy, is exactly the existence of a matching keyword, with
the other fallback when no keyword of any label matches. -/
theorem detect_mem_iff (keywords : List (String × List String)) (subject body label : String) :
    label ∈ detect_task_type keywords subject body ↔
      ((∃ kws, (label, kws) ∈ keywords ∧ ∃ kw ∈ kws, occursInCombined kw subject body = true) ∨
        ((∀ p ∈ keywords, ∀ kw ∈ p.2, occursInCombined kw subject body = false) ∧
          label = "other")) := by
  simp only [detect_task_type]
  by_cases hempty :
      (keywords.filter fun p => p.2.any fun kw =>
        strContains (toLowerStr subject ++ " " ++ toLowerStr body) kw) = []
  · have hall : ∀ p ∈ keywords, ∀ kw ∈ p.2, occursInCombined kw subject body = false := by
      intro p hp kw hkw
      have h2 := List.filter_eq_nil_iff.mp hempty p hp
      have h3 : (p.2.any fun kw => occursInCombined kw subject body) = false := by
        cases hh : p.2.any fun kw => occursInCombined kw subject body
        · rfl
        · exact absurd hh h2
      have h4 := List.any_eq_false.mp h3 kw hkw
      cases hb : occursInCombined kw subject body
      · rfl
      · exact absurd hb h4
    rw [hempty]
    simp only [List.map_nil, List.isEmpty_nil, if_true, List.mem_singleton]
    constructor
    · intro hl
      exact Or.inr ⟨hall, hl⟩
    · rintro (⟨kws, hmem, kw, hkw, hocc⟩ | ⟨_, hl⟩)
      · have hf := hall (label, kws) hmem kw hkw
        rw [hf] at hocc
        exact Bool.noConfusion hocc
      · exact hl
  · have hcond : ¬((keywords.filter fun p => p.2.any fun kw =>
        strContains (toLowerStr subject ++ " " ++ toLowerStr body) kw).map Prod.fst).isEmpty = true := by
      rw [List.isEmpty_iff, List.map_eq_nil_iff]
      exact hempty
    rw [if_neg hcond]
    constructor
    · intro hl
      left
      rcases List.mem_map.mp hl with ⟨p, hpfilter, hfst⟩
      rcases List.mem_filter.mp hpfilter with ⟨hpk, hq⟩
      rcases List.any_eq_true.mp hq with ⟨kw, hkw, hc⟩
      refine ⟨p.2, ?_, kw, hkw, hc⟩
      have hpe : (label, p.2) = p := by
        rw [← hfst]
      rw [hpe]
      exact hpk
    · rintro (⟨kws, hmem, kw, hkw, hocc⟩ | ⟨hallf, _⟩)
      · apply List.mem_map.mpr
        refine ⟨(label, kws), ?_, rfl⟩
        apply List.mem_filter.mpr
        refine ⟨hmem, ?_⟩
        apply List.any_eq_true.mpr
        exact ⟨kw, hkw, hocc⟩
      · exfalso
        apply hempty
        apply List.filter_eq_nil_iff.mpr
        intro p hp hq
        rcases List.any_eq_true.mp hq with ⟨kw, hkw, hc⟩
        have hf := hallf p hp kw hkw
        have hc2 : occursInCombined kw subject body = true := hc
        rw [hf] at hc2
        exact Bool.noConfusion hc2

/-- C9: a label is in the detect_task_type result over the default
taxonomy exactly when one of its keywords occurs in the lower-cased text
assembled from subject and body, with the other fallback when no
configured keyword occurs; and on the concrete input Midterm Exam
Reminder with empty body the result is exactly the exam label. -/
theorem c9_detect_task_type_exact :
    (∀ subject body label : String,
        label ∈ detect_task_type defaultKeywords subject body ↔
          ((∃ kws, (label, kws) ∈ defaultKeywords ∧
              ∃ kw ∈ kws, occursInCombined kw subject body = true) ∨
            ((∀ p ∈ defaultKeywords, ∀ kw ∈ p.2, occursInCombined kw subject body = false) ∧
              label = "other"))) ∧
      detect_task_type defaultKeywords "Midterm Exam Reminder" "" = ["exam"] :=
  ⟨fun subject body label => detect_mem_iff defaultKeywords subject body label, by decide⟩

/-- C10: the pass writes only success rows to the ledger.  First
conjunct: the mark call as the pass makes it (line 302, no status
argument) inserts a row whose status is the literal success.  Second
conjunct: a pass adds no other row and creates no task at all, because
in this draft the create and mark tail of the per-message body is
unreachable (see MsgOutcome), so no row with status failed can ever be
written and a message whose task creation fails stays unmarked. -/
theorem c10_ledger_rows_success :
    (∀ (ledger : List PRow) (id subj now : String),
        is_email_processed ledger id = false →
        markEmailProcessedDefault ledger id subj now =
          (.ok (), ledger ++ [⟨id, subj, now, "success"⟩])) ∧
      (∀ (cfg : IgnoreList) (st : ProcState) (msgs : List RawMsg),
        (processBatch cfg st msgs).ledger = st.ledger ∧
          (processBatch cfg st msgs).tasks = st.tasks) := by
  constructor
  · intro ledger id subj now h
    unfold markEmailProcessedDefault mark_email_processed
    rw [h]
    rfl
  · intro cfg st msgs
    rw [processBatch_state_eq]
    exact ⟨rfl, rfl⟩

/-- Witness for C10 at a concrete fresh insert. -/
theorem c10_ledger_rows_success_witness :
    markEmailProcessedDefault [] "m9" "subj" "t9" = (.ok (), [⟨"m9", "subj", "t9", "success"⟩]) :=
  c10_ledger_rows_success.1 [] "m9" "subj" "t9" rfl
